import Mathlib

/-!
Verification of the siaya_backend check-in ledger subsystem.

This file gives a shallow embedding of the check-in data model and the
operations of the backend (src/entities/*.ts, src/routes/participants.ts,
src/routes/events.ts, the AnalyticsController and src/services/PdfService.ts),
and proves properties of the embedded operations.

Modelling conventions:
- Database tables are lists of rows; TypeORM `findOne` is `List.find?`,
  existence checks are `List.any`, `count`/`getCount` are `List.length` of a
  `List.filter`, and `COUNT(DISTINCT ...)` is `List.dedup.length`.
- JS `Date` instants are `Nat` milliseconds since the Unix epoch; the server
  local time zone is modelled as UTC, so `setHours(0,0,0,0)` is the
  `midnight` function below.
- Missing JSON body fields and empty strings take the same branch in the
  handlers (JS falsiness), so both are modelled as `""`.
- Nullable columns are `Option` values.
-/

namespace Siaya

/-- Milliseconds in one calendar day. -/
def dayMs : Nat := 86400000

/-- Model of `today.setHours(0, 0, 0, 0)` applied to an instant `t`
(src/routes/participants.ts:119-120), with the server local zone modelled
as UTC: truncation to the enclosing day boundary. -/
def midnight (t : Nat) : Nat := t - t % dayMs

/-- Calendar date triple, modelling the year/month/day accessors of a JS
`Date` (`getFullYear`/`getMonth`/`getDate`); month and day are kept as `Int`
so that the differences computed in `calculateAge` are faithful. -/
structure SimpleDate where
  year : Int
  month : Int
  day : Int
deriving DecidableEq

/-- Row of the `users` table (src/entities/User.ts).  The role is kept as a
string because the routes compare it as a string
(`const userRole = user.role as string`); the enum values are
"super_admin", "admin" and "user". -/
structure User where
  id : String
  name : String
  email : String
  role : String
  adminId : Option String
deriving DecidableEq

/-- Row of the `events` table (src/entities/Event.ts).  The many-to-many
`assignedUsers` relation is the list of assigned user ids. -/
structure Event where
  eventId : String
  eventName : String
  location : Option String
  createdById : String
  assignedUserIds : List String
deriving DecidableEq

/-- Row of the `participants` table (src/entities/Participant.ts).  All
nullable columns are `Option`s; `isRegisteredVoter` and `isInvited` are
non-nullable booleans with default `false`. -/
structure Participant where
  id : String
  idNumber : Option String
  name : Option String
  dateOfBirth : Option SimpleDate
  sex : Option String
  county : Option String
  constituency : Option String
  ward : Option String
  phoneNumber : Option String
  pollingCenter : Option String
  group : Option String
  eventId : Option String
  isRegisteredVoter : Bool
  isInvited : Bool
deriving DecidableEq

/-- Row of the `check_in_logs` table (src/entities/CheckInLog.ts).
`checkInDate` is the midnight-normalized calendar date and `checkedInAt`
the full timestamp, both as epoch milliseconds.  The table carries a unique
index on `(participantId, eventId, checkInDate)`
(src/entities/CheckInLog.ts:15). -/
structure CheckInLog where
  id : String
  participantId : String
  eventId : String
  checkedInById : Option String
  checkInDate : Nat
  checkedInAt : Nat
deriving DecidableEq

/-- The relational store: one list of rows per table. -/
structure DB where
  users : List User
  events : List Event
  participants : List Participant
  checkInLogs : List CheckInLog
deriving DecidableEq

/-- Two ledger rows agree on the unique-index triple
`(participantId, eventId, checkInDate)` (src/entities/CheckInLog.ts:15). -/
def tripleEq (l1 l2 : CheckInLog) : Prop :=
  l1.participantId = l2.participantId ∧ l1.eventId = l2.eventId ∧
    l1.checkInDate = l2.checkInDate

instance (l1 l2 : CheckInLog) : Decidable (tripleEq l1 l2) := by
  unfold tripleEq; infer_instance

/-- The ledger satisfies the unique index: no two rows share the
`(participantId, eventId, checkInDate)` triple. -/
def ledgerUnique (logs : List CheckInLog) : Prop :=
  List.Pairwise (fun l1 l2 => ¬ tripleEq l1 l2) logs

instance (logs : List CheckInLog) : Decidable (ledgerUnique logs) := by
  unfold ledgerUnique; infer_instance

/-- Model of `checkEventAccess` (src/routes/participants.ts:15-28). -/
def checkEventAccess (event : Event) (user : User) : Bool :=
  if user.role == "super_admin" then
    true
  else if user.role == "admin" then
    event.createdById == user.id
  else
    match user.adminId with
    | none => false
    | some a => event.createdById == a

/-- The `checkIn` payload returned in the 201 response body
(src/routes/participants.ts:148-162). -/
structure CheckInResponse where
  checkInId : String
  participantId : String
  eventId : String
  checkInDate : Nat
  checkedInAt : Nat
  participantIdNumber : Option String
  participantName : Option String
deriving DecidableEq

/-- Outcome of the check-in handler: HTTP status, message, the database
after the request, and the optional success payload. -/
structure CheckInOutcome where
  status : Nat
  message : String
  db : DB
  response : Option CheckInResponse
deriving DecidableEq

/-- Model of the `POST /checkin` handler (src/routes/participants.ts:73-171).
`db` is the database snapshot the handler reads (validation, participant
lookup and the duplicate pre-check, lines 83-135) and `saveDb` the snapshot
the final `save` writes into (line 146); passing two distinct snapshots
models a concurrent writer between the pre-check and the insert.  The save
itself enforces the storage-layer unique index of
src/entities/CheckInLog.ts:15: a conflicting row makes the save throw,
which the catch block (lines 163-169) surfaces as a 500.
`t1` is the instant of the `new Date()` at line 119 and `t2` the instant of
the `new Date()` at line 143; `newId` is the generated primary key. -/
def checkInWithSave (db saveDb : DB) (eventId idNumber : String)
    (actor : Option User) (newId : String) (t1 t2 : Nat) : CheckInOutcome :=
  if eventId == "" || idNumber == "" then
    ⟨400, "Event ID and ID number are required", db, none⟩
  else
    match db.events.find? (fun e => e.eventId == eventId) with
    | none => ⟨404, "Event not found", db, none⟩
    | some _ =>
      match db.participants.find?
          (fun p => p.eventId == some eventId && p.idNumber == some idNumber) with
      | none => ⟨404, "Participant not found. Please register first.", db, none⟩
      | some p =>
        if db.checkInLogs.any (fun l =>
            l.participantId == p.id && l.eventId == eventId &&
              l.checkInDate == midnight t1) then
          ⟨400, "Participant already checked in today", db, none⟩
        else if saveDb.checkInLogs.any (fun l =>
            l.participantId == p.id && l.eventId == eventId &&
              l.checkInDate == midnight t1) then
          ⟨500, "Internal server error", saveDb, none⟩
        else
          ⟨201, "Participant checked in successfully",
            { saveDb with checkInLogs := saveDb.checkInLogs ++
                [⟨newId, p.id, eventId, actor.map (fun u => u.id), midnight t1, t2⟩] },
            some ⟨newId, p.id, eventId, midnight t1, t2, p.idNumber, p.name⟩⟩

/-- The check-in transaction in the absence of a concurrent writer: the
snapshot read and the snapshot written are the same. -/
def checkIn (db : DB) (eventId idNumber : String) (actor : Option User)
    (newId : String) (t1 t2 : Nat) : CheckInOutcome :=
  checkInWithSave db db eventId idNumber actor newId t1 t2

/-- Foreign-key join from a ledger row to its participant. -/
def participantOf (db : DB) (pid : String) : Option Participant :=
  db.participants.find? (fun p => p.id == pid)

/-- Foreign-key join from a ledger row to the acting user. -/
def userOf (db : DB) (uid : String) : Option User :=
  db.users.find? (fun u => u.id == uid)

/-- Descending order on `checkedInAt` (`order: { checkedInAt: 'DESC' }`). -/
def byCheckedInAtDesc (a b : CheckInLog) : Prop := b.checkedInAt ≤ a.checkedInAt

instance : DecidableRel byCheckedInAtDesc := fun _ _ => Nat.decLe _ _

instance : IsTotal CheckInLog byCheckedInAtDesc :=
  ⟨fun a b => le_total b.checkedInAt a.checkedInAt⟩

instance : IsTrans CheckInLog byCheckedInAtDesc :=
  ⟨fun _ _ _ h1 h2 => le_trans h2 h1⟩

/-- Descending order on the count component of a breakdown entry
(`orderBy('count', 'DESC')`). -/
def byCountDesc (a b : String × Nat) : Prop := b.2 ≤ a.2

instance : DecidableRel byCountDesc := fun _ _ => Nat.decLe _ _

instance : IsTotal (String × Nat) byCountDesc := ⟨fun a b => le_total b.2 a.2⟩

instance : IsTrans (String × Nat) byCountDesc :=
  ⟨fun _ _ _ h1 h2 => le_trans h2 h1⟩

/-- Splits a character list on the dash separator. -/
def splitDash : List Char → List (List Char)
  | [] => [[]]
  | c :: cs =>
    if c = '-' then [] :: splitDash cs
    else
      match splitDash cs with
      | [] => [[c]]
      | g :: gs => (c :: g) :: gs

/-- Digit characters to a number; `none` if any character is not a digit. -/
def digitsToNat (cs : List Char) : Option Nat :=
  cs.foldl
    (fun acc c =>
      match acc with
      | none => none
      | some n => if c.isDigit then some (n * 10 + (c.toNat - 48)) else none)
    (some 0)

/-- Gregorian leap-year test. -/
def isLeap (y : Nat) : Bool := y % 4 == 0 && (y % 100 != 0 || y % 400 == 0)

/-- Month lengths for a (non-)leap year. -/
def monthDays (leap : Bool) : List Nat :=
  [31, if leap then 29 else 28, 31, 30, 31, 30, 31, 31, 30, 31, 30, 31]

/-- Days elapsed from 1970-01-01 to the given date (date in or after 1970). -/
def daysFromEpoch (y m d : Nat) : Nat :=
  ((List.range (y - 1970)).foldl
      (fun acc i => acc + (if isLeap (1970 + i) then 366 else 365)) 0) +
    (((monthDays (isLeap y)).take (m - 1)).foldl (· + ·) 0) + (d - 1)

/-- Modelled from the spec: the `date` route parameter "as `YYYY-MM-DD`"
parsed by the JS runtime's `new Date(date)` (src/routes/participants.ts:370),
a platform primitive that is not part of this repository.  The model accepts
exactly the strict `YYYY-MM-DD` format for dates from 1970 on and yields the
UTC midnight instant; everything else is `none` (the `NaN` case of
`isNaN(targetDate.getTime())`). -/
def jsParseDate (s : String) : Option Nat :=
  match splitDash s.toList with
  | [ys, ms, ds] =>
    match digitsToNat ys, digitsToNat ms, digitsToNat ds with
    | some y, some m, some d =>
      if ys.length == 4 && ms.length == 2 && ds.length == 2 &&
          1970 ≤ y && 1 ≤ m && m ≤ 12 && 1 ≤ d &&
          d ≤ (monthDays (isLeap y)).getD (m - 1) 31 then
        some (daysFromEpoch y m d * dayMs)
      else none
    | _, _, _ => none
  | _ => none

/-- One element of the by-date response list: the ledger row joined with its
participant and the acting user (src/routes/participants.ts:391-410). -/
structure ByDateRow where
  log : CheckInLog
  participant : Option Participant
  checkedInBy : Option User
deriving DecidableEq

/-- Outcome of the by-date handler. -/
structure ByDateOutcome where
  status : Nat
  message : String
  count : Nat
  rows : List ByDateRow
deriving DecidableEq

/-- Model of the `GET /event/:eventId/date/:date` handler
(src/routes/participants.ts:345-420): 404 for an unknown event, 400 for an
unparsable date, otherwise the ledger rows of the event with the given
`checkInDate`, joined with participant and actor, ordered by `checkedInAt`
descending, together with their count. -/
def getParticipantsByDate (db : DB) (eventId dateStr : String) : ByDateOutcome :=
  match db.events.find? (fun e => e.eventId == eventId) with
  | none => ⟨404, "Event not found", 0, []⟩
  | some _ =>
    match jsParseDate dateStr with
    | none => ⟨400, "Invalid date format. Use YYYY-MM-DD", 0, []⟩
    | some t =>
      let target := midnight t
      let logs := List.insertionSort byCheckedInAtDesc
        (db.checkInLogs.filter
          (fun l => l.eventId == eventId && l.checkInDate == target))
      ⟨200, "Participants retrieved successfully", logs.length,
        logs.map (fun l =>
          ⟨l, participantOf db l.participantId,
            match l.checkedInById with
            | none => none
            | some uid => userOf db uid⟩)⟩

/-- The statistics payload of `GET /:eventId/statistics`
(src/routes/events.ts:443-452), category counts only. -/
structure EventStats where
  totalCheckIns : Nat
  totalParticipants : Nat
  invitedCheckIns : Nat
  registeredWalkIns : Nat
  adultPopulationCheckIns : Nat
  invitedRegisteredCheckIns : Nat
  invitedNotRegisteredCheckIns : Nat
  totalRegisteredCheckIns : Nat
  totalNotRegisteredCheckIns : Nat
deriving DecidableEq

/-- Model of the category counts of the `GET /:eventId/statistics` handler
(src/routes/events.ts:348-415).  Each category query counts ledger rows
(`getCount()` over `check_in_logs` left-joined with `participants`): the
positive flag conditions (`flag = true`) are false for a dangling join,
while the negated ones (`flag = false OR flag IS NULL`) are true for a
dangling join, mirroring the SQL three-valued logic. -/
def eventStatistics (db : DB) (eid : String) : EventStats :=
  let joined := (db.checkInLogs.filter (fun l => l.eventId == eid)).map
    (fun l => participantOf db l.participantId)
  { totalCheckIns := (db.checkInLogs.filter (fun l => l.eventId == eid)).length
    totalParticipants :=
      (db.participants.filter (fun p => p.eventId == some eid)).length
    invitedCheckIns := (joined.filter (fun po =>
      match po with | some p => p.isInvited | none => false)).length
    registeredWalkIns := (joined.filter (fun po =>
      match po with | some p => !p.isInvited | none => true)).length
    adultPopulationCheckIns := (joined.filter (fun po =>
      match po with
      | some p => !p.isInvited && !p.isRegisteredVoter
      | none => true)).length
    invitedRegisteredCheckIns := (joined.filter (fun po =>
      match po with
      | some p => p.isInvited && p.isRegisteredVoter
      | none => false)).length
    invitedNotRegisteredCheckIns := (joined.filter (fun po =>
      match po with
      | some p => p.isInvited && !p.isRegisteredVoter
      | none => false)).length
    totalRegisteredCheckIns := (joined.filter (fun po =>
      match po with | some p => p.isRegisteredVoter | none => false)).length
    totalNotRegisteredCheckIns := (joined.filter (fun po =>
      match po with | some p => !p.isRegisteredVoter | none => true)).length }

/-- Definition following the spec's words, for comparison with
`eventStatistics`: the number of distinct participants of the event that
have at least one ledger row in the event and satisfy the flag predicate
("Each is a count of distinct participants with ≥1 Ledger row satisfying
the flag predicate"). -/
def specDistinctFlagCount (db : DB) (eid : String) (pred : Participant → Bool) : Nat :=
  (((db.participants.filter (fun p => p.eventId == some eid && pred p)).filter
      (fun p => db.checkInLogs.any
        (fun l => l.eventId == eid && l.participantId == p.id))).map
    (fun p => p.id)).dedup.length

/-- Grouping dimension of the hierarchical breakdown
(the `level` query parameter of `AnalyticsController.getEventHierarchyStats`). -/
inductive HLevel
  | county
  | constituency
  | ward
  | hgroup
deriving DecidableEq

/-- Column selected for a grouping level (`groupByField`). -/
def dimField : HLevel → Participant → Option String
  | .county, p => p.county
  | .constituency, p => p.constituency
  | .ward, p => p.ward
  | .hgroup, p => p.group

/-- Column filtered by `parentName` for a grouping level
(`parentFilterField`; empty for `county` and `group`). -/
def parentField : HLevel → Option (Participant → Option String)
  | .county => none
  | .constituency => some (fun p => p.county)
  | .ward => some (fun p => p.constituency)
  | .hgroup => none

/-- The participants contributing to the hierarchical breakdown
(AnalyticsController.getEventHierarchyStats, see src/config/env.ts): rows of
the event, inner-joined with the ledger (at least one ledger row), with a
non-null non-empty dimension value, and matching the parent filter when
`parentName` is a non-empty string and the level has a parent column
(`if (parentName && parentFilterField)`). -/
def hierarchyCandidates (db : DB) (eid : String) (level : HLevel)
    (parentName : Option String) : List Participant :=
  db.participants.filter (fun p =>
    p.eventId == some eid &&
    db.checkInLogs.any (fun l => l.participantId == p.id) &&
    (match dimField level p with
     | none => false
     | some v => v != "") &&
    (match parentName with
     | none => true
     | some pn =>
       if pn == "" then true
       else
         match parentField level with
         | none => true
         | some f => f p == some pn))

/-- The grouped rows of `AnalyticsController.getEventHierarchyStats` before
ordering: for each distinct dimension value among the candidate
participants, the count of distinct participant ids
(`COUNT(DISTINCT participant.id)` with `GROUP BY` on the dimension). -/
def hierarchyBase (db : DB) (eid : String) (level : HLevel)
    (parentName : Option String) : List (String × Nat) :=
  (((hierarchyCandidates db eid level parentName).filterMap
      (dimField level)).dedup).map
    (fun v =>
      (v, (((hierarchyCandidates db eid level parentName).filter
          (fun p => dimField level p == some v)).map
        (fun p => p.id)).dedup.length))

/-- Model of `AnalyticsController.getEventHierarchyStats`: the grouped
distinct-participant counts, sorted by count descending
(`orderBy('totalCheckedIn', 'DESC')`). -/
def getEventHierarchyStats (db : DB) (eid : String) (level : HLevel)
    (parentName : Option String) : List (String × Nat) :=
  List.insertionSort byCountDesc (hierarchyBase db eid level parentName)

/-- Model of `PdfService.calculateAge` (src/services/PdfService.ts:44-55):
`none` stands for both a null and an unparsable `dateOfBirth` (the
`isNaN(birthDate.getTime())` case), and the year difference is decremented
when the birthday has not yet been reached this year. -/
def calculateAge (today : SimpleDate) : Option SimpleDate → Option Int
  | none => none
  | some b =>
    if today.month - b.month < 0 ||
        (today.month - b.month == 0 && today.day < b.day) then
      some (today.year - b.year - 1)
    else
      some (today.year - b.year)

/-- Model of `PdfService.getAgeGroup` (src/services/PdfService.ts:57-66). -/
def getAgeGroup (age : Option Int) : String :=
  match age with
  | none => "NOT STATED"
  | some a =>
    if a < 18 then "Under 18"
    else if 18 ≤ a && a < 27 then "18-27"
    else if 27 ≤ a && a < 35 then "27-35"
    else if 35 ≤ a && a < 50 then "35-50"
    else if 50 ≤ a && a < 65 then "50-64"
    else if 65 ≤ a then "65+"
    else "NOT STATED"

/-- Model of `PdfService.normalizeGender` (src/services/PdfService.ts:68-74);
`none` and `""` are both JS-falsy and map to "NOT STATED". -/
def normalizeGender (raw : Option String) : String :=
  match raw with
  | none => "NOT STATED"
  | some s =>
    if s == "" then "NOT STATED"
    else if s.trim.toUpper == "M" || s.trim.toUpper == "MALE" then "MALE"
    else if s.trim.toUpper == "F" || s.trim.toUpper == "FEMALE" then "FEMALE"
    else "NOT STATED"

/-- The participants of an event having at least one ledger row in the event
(`checkedInParticipants` in `PdfService.getEventAnalytics`,
src/services/PdfService.ts:87-97). -/
def checkedInParticipants (db : DB) (eid : String) : List Participant :=
  (db.participants.filter (fun p => p.eventId == some eid)).filter
    (fun p => (db.checkInLogs.filter (fun l => l.eventId == eid)).any
      (fun l => l.participantId == p.id))

/-- One bucket of the gender cross-tab of `PdfService.getEventAnalytics`
(src/services/PdfService.ts:102-106). -/
def genderCount (db : DB) (eid key : String) : Nat :=
  ((checkedInParticipants db eid).filter
    (fun p => normalizeGender p.sex == key)).length

/-- One bucket of the age cross-tab of `PdfService.getEventAnalytics`
(src/services/PdfService.ts:108-115): participants with a known age under
18 are scrapped before bucketing. -/
def ageBucketCount (db : DB) (eid : String) (today : SimpleDate) (key : String) : Nat :=
  ((checkedInParticipants db eid).filter (fun p =>
    let age := calculateAge today p.dateOfBirth
    !(match age with
      | some a => decide (a < 18)
      | none => false) &&
    getAgeGroup age == key)).length

/-- The fixed ascending output order of the age buckets
(src/services/PdfService.ts:118). -/
def ageOrder : List String := ["18-27", "27-35", "35-50", "50-64", "65+", "NOT STATED"]

/-- The age cross-tab of `PdfService.getEventAnalytics`
(src/services/PdfService.ts:117-124): buckets in the fixed `ageOrder`,
zero-count buckets omitted (`if (ageStatsUnsorted[key])`). -/
def ageStats (db : DB) (eid : String) (today : SimpleDate) : List (String × Nat) :=
  ageOrder.filterMap (fun k =>
    if ageBucketCount db eid today k == 0 then none
    else some (k, ageBucketCount db eid today k))

/-- The duplicate pre-check predicate of src/routes/participants.ts:122-128. -/
def dupPred (eid : String) (today : Nat) (p : Participant) (l : CheckInLog) : Bool :=
  l.participantId == p.id && l.eventId == eid && l.checkInDate == today

/-! ### Concrete example data -/

/-- An admin user owning the example event. -/
def exAdmin : User := ⟨"A1", "Alice Admin", "alice@example.com", "admin", none⟩

/-- A staff user assigned to the admin. -/
def exStaff : User := ⟨"U1", "Sam Staff", "sam@example.com", "user", some "A1"⟩

/-- A plain user with no admin assigned. -/
def exLoneUser : User := ⟨"U2", "Lia Lone", "lia@example.com", "user", none⟩

/-- The example event, created by the admin. -/
def exEvent : Event := ⟨"E1", "Launch", some "Siaya", "A1", ["U1"]⟩

/-- The example participant, registered for the event. -/
def exParticipant : Participant :=
  ⟨"P1", some "23057470", some "Jane Doe", some ⟨1990, 5, 20⟩, some "F",
    some "Siaya", some "Gem", some "Yala", none, none, some "Youth",
    some "E1", true, true⟩

/-- Database before any check-in. -/
def exDb : DB := ⟨[exAdmin, exStaff, exLoneUser], [exEvent], [exParticipant], []⟩

/-- Ledger row for 2024-11-05 (07:00:00.123 UTC). -/
def exRow : CheckInLog :=
  ⟨"L1", "P1", "E1", some "U1", 1730764800000, 1730790000123⟩

/-- Ledger row for 2024-11-06. -/
def exRow2 : CheckInLog :=
  ⟨"L2", "P1", "E1", some "U1", 1730851200000, 1730876400000⟩

/-- Database holding the 2024-11-05 check-in. -/
def exDbWithRow : DB :=
  ⟨[exAdmin, exStaff, exLoneUser], [exEvent], [exParticipant], [exRow]⟩

/-- Database holding same-participant check-ins on two distinct days. -/
def exDb2 : DB :=
  ⟨[exAdmin, exStaff, exLoneUser], [exEvent], [exParticipant], [exRow, exRow2]⟩

/-! ### Case analysis of the check-in transaction -/

/-- Exhaustive description of the sequential check-in transaction: exactly
one of the five handler branches applies, and in each branch the outcome is
the literal response of the source. -/
lemma checkIn_cases (db : DB) (eid idn : String) (actor : Option User)
    (newId : String) (t1 t2 : Nat) :
    ((eid == "" || idn == "") = true ∧
      checkIn db eid idn actor newId t1 t2 =
        ⟨400, "Event ID and ID number are required", db, none⟩) ∨
    ((eid == "" || idn == "") = false ∧
      db.events.find? (fun e => e.eventId == eid) = none ∧
      checkIn db eid idn actor newId t1 t2 = ⟨404, "Event not found", db, none⟩) ∨
    ((eid == "" || idn == "") = false ∧
      (db.events.find? (fun e => e.eventId == eid)).isSome = true ∧
      db.participants.find?
          (fun p => p.eventId == some eid && p.idNumber == some idn) = none ∧
      checkIn db eid idn actor newId t1 t2 =
        ⟨404, "Participant not found. Please register first.", db, none⟩) ∨
    (∃ p, (eid == "" || idn == "") = false ∧
      (db.events.find? (fun e => e.eventId == eid)).isSome = true ∧
      db.participants.find?
          (fun q => q.eventId == some eid && q.idNumber == some idn) = some p ∧
      db.checkInLogs.any (dupPred eid (midnight t1) p) = true ∧
      checkIn db eid idn actor newId t1 t2 =
        ⟨400, "Participant already checked in today", db, none⟩) ∨
    (∃ p, (eid == "" || idn == "") = false ∧
      (db.events.find? (fun e => e.eventId == eid)).isSome = true ∧
      db.participants.find?
          (fun q => q.eventId == some eid && q.idNumber == some idn) = some p ∧
      db.checkInLogs.any (dupPred eid (midnight t1) p) = false ∧
      checkIn db eid idn actor newId t1 t2 =
        ⟨201, "Participant checked in successfully",
          { db with checkInLogs := db.checkInLogs ++
              [⟨newId, p.id, eid, actor.map (fun u => u.id), midnight t1, t2⟩] },
          some ⟨newId, p.id, eid, midnight t1, t2, p.idNumber, p.name⟩⟩) := by
  unfold checkIn checkInWithSave dupPred
  by_cases hb : (eid == "" || idn == "") = true
  · exact Or.inl ⟨hb, by simp [hb]⟩
  · rw [Bool.not_eq_true] at hb
    cases hev : db.events.find? (fun e => e.eventId == eid) with
    | none => exact Or.inr (Or.inl ⟨hb, rfl, by simp [hb]⟩)
    | some e =>
      cases hp : db.participants.find?
          (fun p => p.eventId == some eid && p.idNumber == some idn) with
      | none =>
        exact Or.inr (Or.inr (Or.inl ⟨hb, by simp, rfl, by simp [hb]⟩))
      | some p =>
        by_cases hd : db.checkInLogs.any (fun l =>
            l.participantId == p.id && l.eventId == eid &&
              l.checkInDate == midnight t1) = true
        · exact Or.inr (Or.inr (Or.inr (Or.inl
            ⟨p, hb, by simp, rfl, hd, by simp [hb, hd]⟩)))
        · rw [Bool.not_eq_true] at hd
          exact Or.inr (Or.inr (Or.inr (Or.inr
            ⟨p, hb, by simp, rfl, hd, by simp [hb, hd]⟩)))

/-- A 201 outcome of the sequential transaction pins down every branch
condition and the exact outcome. -/
lemma checkIn_success_shape (db : DB) (eid idn : String) (actor : Option User)
    (newId : String) (t1 t2 : Nat)
    (h : (checkIn db eid idn actor newId t1 t2).status = 201) :
    ∃ e p, (eid == "" || idn == "") = false ∧
      db.events.find? (fun e => e.eventId == eid) = some e ∧
      db.participants.find?
          (fun q => q.eventId == some eid && q.idNumber == some idn) = some p ∧
      db.checkInLogs.any (dupPred eid (midnight t1) p) = false ∧
      checkIn db eid idn actor newId t1 t2 =
        ⟨201, "Participant checked in successfully",
          { db with checkInLogs := db.checkInLogs ++
              [⟨newId, p.id, eid, actor.map (fun u => u.id), midnight t1, t2⟩] },
          some ⟨newId, p.id, eid, midnight t1, t2, p.idNumber, p.name⟩⟩ := by
  rcases checkIn_cases db eid idn actor newId t1 t2 with
    ⟨_, hout⟩ | ⟨_, _, hout⟩ | ⟨_, _, _, hout⟩ | ⟨p, _, _, _, _, hout⟩ |
    ⟨p, hb, hev, hp, hd, hout⟩
  · rw [hout] at h; simp at h
  · rw [hout] at h; simp at h
  · rw [hout] at h; simp at h
  · rw [hout] at h; simp at h
  · obtain ⟨e, hev'⟩ := Option.isSome_iff_exists.mp hev
    exact ⟨e, p, hb, hev', hp, hd, hout⟩

/-- When the duplicate pre-check finds a same-triple row, the transaction
answers 400 "Participant already checked in today" and leaves the database
untouched. -/
lemma checkIn_dup_eq (db : DB) (eid idn : String) (actor : Option User)
    (newId : String) (t1 t2 : Nat) (e : Event) (p : Participant)
    (hb : (eid == "" || idn == "") = false)
    (hev : db.events.find? (fun e => e.eventId == eid) = some e)
    (hp : db.participants.find?
      (fun q => q.eventId == some eid && q.idNumber == some idn) = some p)
    (hd : db.checkInLogs.any (dupPred eid (midnight t1) p) = true) :
    checkIn db eid idn actor newId t1 t2 =
      ⟨400, "Participant already checked in today", db, none⟩ := by
  unfold checkIn checkInWithSave
  unfold dupPred at hd
  simp [hb, hev, hp, hd]

/-- C1: the ledger keeps at most one row per (participant, event, calendar
day): any check-in preserves the unique-triple invariant, and after a
successful check-in, a second check-in for the same event and id number on
the same calendar day returns 400 "Participant already checked in today"
and leaves the database (hence the ledger) unchanged. -/
theorem checkin_one_per_day (db : DB) (eid idn : String) (actor : Option User)
    (newId : String) (t1 t2 : Nat) :
    (ledgerUnique db.checkInLogs →
      ledgerUnique ((checkIn db eid idn actor newId t1 t2).db.checkInLogs)) ∧
    ((checkIn db eid idn actor newId t1 t2).status = 201 →
      ∀ (actor2 : Option User) (newId2 : String) (t1' t2' : Nat),
        midnight t1' = midnight t1 →
        checkIn (checkIn db eid idn actor newId t1 t2).db eid idn actor2
            newId2 t1' t2' =
          ⟨400, "Participant already checked in today",
            (checkIn db eid idn actor newId t1 t2).db, none⟩) := by
  constructor
  · intro h
    rcases checkIn_cases db eid idn actor newId t1 t2 with
      ⟨_, hout⟩ | ⟨_, _, hout⟩ | ⟨_, _, _, hout⟩ | ⟨p, _, _, _, _, hout⟩ |
      ⟨p, hb, hev, hp, hd, hout⟩
    · rw [hout]; exact h
    · rw [hout]; exact h
    · rw [hout]; exact h
    · rw [hout]; exact h
    · rw [hout]
      show ledgerUnique (db.checkInLogs ++
        [(⟨newId, p.id, eid, actor.map (fun u => u.id), midnight t1, t2⟩ :
          CheckInLog)])
      unfold ledgerUnique at h ⊢
      rw [List.pairwise_append]
      refine ⟨h, List.pairwise_singleton _ _, ?_⟩
      intro a ha b hbmem
      simp only [List.mem_singleton] at hbmem
      subst hbmem
      intro htrip
      have hfalse := List.any_eq_false.mp hd a ha
      apply hfalse
      unfold dupPred
      obtain ⟨h1, h2, h3⟩ := htrip
      simp only at h1 h2 h3
      simp [h1, h2, h3]
  · intro h201 actor2 newId2 t1' t2' hmid
    obtain ⟨e, p, hb, hev, hp, hd, hout⟩ :=
      checkIn_success_shape db eid idn actor newId t1 t2 h201
    rw [hout]
    refine checkIn_dup_eq _ eid idn actor2 newId2 t1' t2' e p hb hev hp ?_
    show (db.checkInLogs ++
      [(⟨newId, p.id, eid, actor.map (fun u => u.id), midnight t1, t2⟩ :
        CheckInLog)]).any (dupPred eid (midnight t1') p) = true
    rw [List.any_append]
    apply Bool.or_eq_true_iff.mpr
    right
    simp [dupPred, hmid]

/-! ### C2: constraint violation at save time -/

/-- C2 counterexample: two racing same-day check-ins are modelled by a
pre-check snapshot without the row (`exDb`) and a save-time snapshot where
the other request's row already exists (`exDbWithRow`).  The pre-check
passes, the insert hits the unique constraint, and the catch block returns
a generic 500 "Internal server error" — not the claimed 400
"Participant already checked in today". -/
theorem checkin_race_500_counterexample :
    checkInWithSave exDb exDbWithRow "E1" "23057470" (some exStaff) "L9"
        1730790001000 1730790002000 =
      ⟨500, "Internal server error", exDbWithRow, none⟩ ∧
    (checkInWithSave exDb exDbWithRow "E1" "23057470" (some exStaff) "L9"
        1730790001000 1730790002000).status ≠ 400 := by
  constructor
  · rfl
  · decide

/-- C2 amended: when the duplicate pre-check passes but the save-time
snapshot already holds a row with the same unique triple, the transaction
surfaces the storage-layer constraint violation through its generic catch
block as 500 "Internal server error" (with no row written), not as the
DuplicateCheckIn outcome. -/
theorem checkin_race_internal_error (db saveDb : DB) (eid idn : String)
    (actor : Option User) (newId : String) (t1 t2 : Nat) (e : Event)
    (p : Participant)
    (hb : (eid == "" || idn == "") = false)
    (hev : db.events.find? (fun e => e.eventId == eid) = some e)
    (hp : db.participants.find?
      (fun q => q.eventId == some eid && q.idNumber == some idn) = some p)
    (hpre : db.checkInLogs.any (dupPred eid (midnight t1) p) = false)
    (hsave : saveDb.checkInLogs.any (dupPred eid (midnight t1) p) = true) :
    checkInWithSave db saveDb eid idn actor newId t1 t2 =
      ⟨500, "Internal server error", saveDb, none⟩ := by
  unfold checkInWithSave
  unfold dupPred at hpre hsave
  simp [hb, hev, hp, hpre, hsave]

/-- Witness for the amended C2 statement at the concrete race. -/
theorem checkin_race_internal_error_witness :
    checkInWithSave exDb exDbWithRow "E1" "23057470" (some exStaff) "L9"
        1730790001000 1730790002000 =
      ⟨500, "Internal server error", exDbWithRow, none⟩ :=
  checkin_race_internal_error exDb exDbWithRow "E1" "23057470" (some exStaff)
    "L9" 1730790001000 1730790002000 exEvent exParticipant (by decide)
    (by decide) (by decide) (by decide) (by decide)

/-! ### C3: statistics category counts -/

/-- C3 counterexample: one invited participant checked in on two distinct
days contributes 2 (their number of ledger rows), not 1, to the
invited category count of the statistics endpoint; the spec-side distinct
count is 1, so the claim that each category count is a distinct-participant
count fails. -/
theorem statistics_distinct_counterexample :
    (eventStatistics exDb2 "E1").invitedCheckIns = 2 ∧
    specDistinctFlagCount exDb2 "E1" (fun p => p.isInvited) = 1 ∧
    (eventStatistics exDb2 "E1").invitedCheckIns ≠
      specDistinctFlagCount exDb2 "E1" (fun p => p.isInvited) := by
  refine ⟨rfl, rfl, ?_⟩
  decide

/-- A positive flag condition and its SQL-style negation (false-or-null)
partition the joined rows. -/
lemma length_filter_match_partition (xs : List (Option Participant))
    (f : Participant → Bool) :
    (xs.filter (fun po =>
      match po with | some p => f p | none => false)).length +
      (xs.filter (fun po =>
        match po with | some p => !f p | none => true)).length = xs.length := by
  induction xs with
  | nil => simp
  | cons x xs ih =>
    cases x with
    | none => simp [List.filter_cons]; omega
    | some p => cases hf : f p <;> simp [List.filter_cons, hf] <;> omega

/-- C3 amended: every category count of the statistics endpoint is a count
of ledger rows, not of distinct participants — the invited and not-invited
categories partition the raw check-in count (and likewise for voter
registration status), and appending one more ledger row for an invited
participant who is already counted still increases the invited count by
one (an N-day participant contributes N). -/
theorem statistics_row_counts (db : DB) (eid : String) (l : CheckInLog)
    (p : Participant) :
    ((eventStatistics db eid).invitedCheckIns +
        (eventStatistics db eid).registeredWalkIns =
      (eventStatistics db eid).totalCheckIns) ∧
    ((eventStatistics db eid).totalRegisteredCheckIns +
        (eventStatistics db eid).totalNotRegisteredCheckIns =
      (eventStatistics db eid).totalCheckIns) ∧
    (l.eventId = eid → participantOf db l.participantId = some p →
      p.isInvited = true →
      (eventStatistics { db with checkInLogs := db.checkInLogs ++ [l] }
          eid).invitedCheckIns =
        (eventStatistics db eid).invitedCheckIns + 1) := by
  refine ⟨?_, ?_, ?_⟩
  · have h := length_filter_match_partition
      ((db.checkInLogs.filter (fun l => l.eventId == eid)).map
        (fun l => participantOf db l.participantId))
      (fun p => p.isInvited)
    rw [List.length_map] at h
    simpa [eventStatistics] using h
  · have h := length_filter_match_partition
      ((db.checkInLogs.filter (fun l => l.eventId == eid)).map
        (fun l => participantOf db l.participantId))
      (fun p => p.isRegisteredVoter)
    rw [List.length_map] at h
    simpa [eventStatistics] using h
  · intro hle hpo hinv
    unfold eventStatistics participantOf
    simp only [List.filter_append, List.map_append, List.filter_cons,
      List.filter_nil, List.map_cons, List.map_nil]
    unfold participantOf at hpo
    simp [hle, hpo, hinv]

/-- Witness for the amended C3 statement: the two-day invited participant
raises the invited count from 1 to 2, and the partitions hold on the
two-day database. -/
theorem statistics_row_counts_witness :
    ((eventStatistics exDb2 "E1").invitedCheckIns +
        (eventStatistics exDb2 "E1").registeredWalkIns =
      (eventStatistics exDb2 "E1").totalCheckIns) ∧
    (eventStatistics
        { exDbWithRow with
          checkInLogs := exDbWithRow.checkInLogs ++ [exRow2] }
        "E1").invitedCheckIns =
      (eventStatistics exDbWithRow "E1").invitedCheckIns + 1 :=
  ⟨(statistics_row_counts exDb2 "E1" exRow2 exParticipant).1,
   (statistics_row_counts exDbWithRow "E1" exRow2 exParticipant).2.2
     (by decide) (by decide) (by decide)⟩

/-! ### C4: access scoping is not consulted by the check-in path -/

/-- C4: the access policy itself fails closed — `checkEventAccess` denies a
plain user with no `adminId` — but the check-in handler never consults it:
the same unauthorized user performing a check-in obtains a 201 and a ledger
row is written, instead of the claimed 403 denial with no effect.  (The
per-date log-retrieval handler's access check is commented out in
src/routes/participants.ts:363-367, so it too is not gated.) -/
theorem checkin_access_not_enforced :
    checkEventAccess exEvent exLoneUser = false ∧
    (checkIn exDb "E1" "23057470" (some exLoneUser) "L1" 1730790000000
        1730790000123).status = 201 ∧
    (checkIn exDb "E1" "23057470" (some exLoneUser) "L1" 1730790000000
        1730790000123).db.checkInLogs ≠ [] := by
  refine ⟨rfl, rfl, ?_⟩
  decide

/-! ### C5, C6, C10: check-in preconditions, effects, date normalization -/

/-- C5: the transaction answers 400 "Event ID and ID number are required"
exactly when the event id or the id number is missing/empty; it answers 404
exactly when the fields are present but the event does not exist or no
participant with that (event, id number) pair is registered; it never
creates a Participant row in any branch; and when the fields are present,
the event and participant exist and no same-day ledger row exists, it
succeeds with 201. -/
theorem checkin_validation (db : DB) (eid idn : String) (actor : Option User)
    (newId : String) (t1 t2 : Nat) :
    (((checkIn db eid idn actor newId t1 t2).status = 400 ∧
        (checkIn db eid idn actor newId t1 t2).message =
          "Event ID and ID number are required") ↔
      (eid == "" || idn == "") = true) ∧
    ((checkIn db eid idn actor newId t1 t2).status = 404 ↔
      ((eid == "" || idn == "") = false ∧
        (db.events.find? (fun e => e.eventId == eid) = none ∨
          ((db.events.find? (fun e => e.eventId == eid)).isSome = true ∧
            db.participants.find?
              (fun q => q.eventId == some eid && q.idNumber == some idn) =
                none)))) ∧
    ((checkIn db eid idn actor newId t1 t2).db.participants =
      db.participants) ∧
    (∀ p, (eid == "" || idn == "") = false →
      (db.events.find? (fun e => e.eventId == eid)).isSome = true →
      db.participants.find?
        (fun q => q.eventId == some eid && q.idNumber == some idn) = some p →
      db.checkInLogs.any (dupPred eid (midnight t1) p) = false →
      (checkIn db eid idn actor newId t1 t2).status = 201) := by
  rcases checkIn_cases db eid idn actor newId t1 t2 with
    ⟨hb, hout⟩ | ⟨hb, hev, hout⟩ | ⟨hb, hev, hp, hout⟩ |
    ⟨p, hb, hev, hp, hd, hout⟩ | ⟨p, hb, hev, hp, hd, hout⟩
  · rw [hout]
    refine ⟨by simp [hb], by simp [hb], rfl, ?_⟩
    intro p hb2 _ _ _
    rw [hb] at hb2
    exact absurd hb2 (by decide)
  · rw [hout]
    refine ⟨by simp [hb], by simp [hb, hev], rfl, ?_⟩
    intro p _ hev2 _ _
    rw [hev] at hev2
    exact absurd hev2 (by decide)
  · obtain ⟨e, hev'⟩ := Option.isSome_iff_exists.mp hev
    rw [hout]
    refine ⟨by simp [hb], by simp [hb, hev', hp], rfl, ?_⟩
    intro p _ _ hp2 _
    rw [hp] at hp2
    exact absurd hp2 (by simp)
  · obtain ⟨e, hev'⟩ := Option.isSome_iff_exists.mp hev
    rw [hout]
    refine ⟨by simp [hb], by simp [hb, hev', hp], rfl, ?_⟩
    intro p' _ _ hp2 hd2
    rw [hp] at hp2
    rw [Option.some.injEq] at hp2
    subst hp2
    rw [hd] at hd2
    exact absurd hd2 (by decide)
  · obtain ⟨e, hev'⟩ := Option.isSome_iff_exists.mp hev
    rw [hout]
    exact ⟨by simp [hb], by simp [hb, hev', hp], rfl, fun _ _ _ _ _ => rfl⟩

/-- Witness for C5: on the example database the registered participant's
first check-in succeeds with 201. -/
theorem checkin_validation_witness :
    (checkIn exDb "E1" "23057470" (some exStaff) "L1" 1730790000000
      1730790000123).status = 201 :=
  (checkin_validation exDb "E1" "23057470" (some exStaff) "L1" 1730790000000
      1730790000123).2.2.2 exParticipant (by decide) (by decide) (by decide)
    (by decide)

/-- C6: a successful check-in appends exactly one ledger row — carrying
`checkInDate = midnight t1`, `checkedInAt = t2` and the actor id — leaves
the users, events and participants tables untouched (no checked-in state is
written to the Participant), and responds with the created row's id, date
and timestamp plus the participant's id, id number and name. -/
theorem checkin_success_effects (db : DB) (eid idn : String)
    (actor : Option User) (newId : String) (t1 t2 : Nat)
    (h201 : (checkIn db eid idn actor newId t1 t2).status = 201) :
    ∃ p, db.participants.find?
        (fun q => q.eventId == some eid && q.idNumber == some idn) = some p ∧
      (checkIn db eid idn actor newId t1 t2).db.users = db.users ∧
      (checkIn db eid idn actor newId t1 t2).db.events = db.events ∧
      (checkIn db eid idn actor newId t1 t2).db.participants =
        db.participants ∧
      (checkIn db eid idn actor newId t1 t2).db.checkInLogs =
        db.checkInLogs ++
          [⟨newId, p.id, eid, actor.map (fun u => u.id), midnight t1, t2⟩] ∧
      (checkIn db eid idn actor newId t1 t2).response =
        some ⟨newId, p.id, eid, midnight t1, t2, p.idNumber, p.name⟩ := by
  obtain ⟨e, p, hb, hev, hp, hd, hout⟩ :=
    checkIn_success_shape db eid idn actor newId t1 t2 h201
  exact ⟨p, hp, by rw [hout], by rw [hout], by rw [hout], by rw [hout],
    by rw [hout]⟩

/-- Witness for C6 at the example database. -/
theorem checkin_success_effects_witness :
    ∃ p, exDb.participants.find?
        (fun q => q.eventId == some "E1" && q.idNumber == some "23057470") =
          some p ∧
      (checkIn exDb "E1" "23057470" (some exStaff) "L1" 1730790000000
        1730790000123).db.users = exDb.users ∧
      (checkIn exDb "E1" "23057470" (some exStaff) "L1" 1730790000000
        1730790000123).db.events = exDb.events ∧
      (checkIn exDb "E1" "23057470" (some exStaff) "L1" 1730790000000
        1730790000123).db.participants = exDb.participants ∧
      (checkIn exDb "E1" "23057470" (some exStaff) "L1" 1730790000000
        1730790000123).db.checkInLogs =
        exDb.checkInLogs ++
          [⟨"L1", p.id, "E1", (some exStaff).map (fun u => u.id),
            midnight 1730790000000, 1730790000123⟩] ∧
      (checkIn exDb "E1" "23057470" (some exStaff) "L1" 1730790000000
        1730790000123).response =
        some ⟨"L1", p.id, "E1", midnight 1730790000000, 1730790000123,
          p.idNumber, p.name⟩ :=
  checkin_success_effects exDb "E1" "23057470" (some exStaff) "L1"
    1730790000000 1730790000123 (by decide)

/-- C10: under a request shorter than one day (`t1 ≤ t2 < t1 + dayMs`),
every ledger row created by the transaction has a midnight-normalized
`checkInDate` (time-of-day component zero), a `checkedInAt` no earlier than
its `checkInDate`, and the calendar day derived from `checkedInAt` is
either the stored `checkInDate` or at most one day later. -/
theorem checkin_date_normalized (db : DB) (eid idn : String)
    (actor : Option User) (newId : String) (t1 t2 : Nat)
    (h1 : t1 ≤ t2) (h2 : t2 < t1 + dayMs) :
    ∀ r ∈ (checkIn db eid idn actor newId t1 t2).db.checkInLogs,
      r ∈ db.checkInLogs ∨
      (r.checkInDate % dayMs = 0 ∧
        r.checkInDate ≤ r.checkedInAt ∧
        r.checkInDate ≤ midnight r.checkedInAt ∧
        midnight r.checkedInAt ≤ r.checkInDate + dayMs) := by
  rcases checkIn_cases db eid idn actor newId t1 t2 with
    ⟨_, hout⟩ | ⟨_, _, hout⟩ | ⟨_, _, _, hout⟩ | ⟨p, _, _, _, _, hout⟩ |
    ⟨p, hb, hev, hp, hd, hout⟩
  · rw [hout]; exact fun r hr => Or.inl hr
  · rw [hout]; exact fun r hr => Or.inl hr
  · rw [hout]; exact fun r hr => Or.inl hr
  · rw [hout]; exact fun r hr => Or.inl hr
  · rw [hout]
    intro r hr
    rw [show ((⟨201, "Participant checked in successfully",
        { db with checkInLogs := db.checkInLogs ++
            [⟨newId, p.id, eid, actor.map (fun u => u.id), midnight t1, t2⟩] },
        some ⟨newId, p.id, eid, midnight t1, t2, p.idNumber,
          p.name⟩⟩ : CheckInOutcome)).db.checkInLogs =
      db.checkInLogs ++
        [⟨newId, p.id, eid, actor.map (fun u => u.id), midnight t1, t2⟩]
      from rfl] at hr
    rw [List.mem_append] at hr
    rcases hr with hr | hr
    · exact Or.inl hr
    · rw [List.mem_singleton] at hr
      subst hr
      right
      refine ⟨?_, ?_, ?_, ?_⟩ <;>
        simp only [midnight, dayMs] at h2 ⊢ <;> omega

/-- Witness for C10 at the example check-in: the created row has a
midnight-normalized date one day apart at most from its timestamp. -/
theorem checkin_date_normalized_witness :
    (⟨"L1", "P1", "E1", some "U1", 1730764800000,
        1730790000123⟩ : CheckInLog) ∈ exDb.checkInLogs ∨
      (1730764800000 % dayMs = 0 ∧
        1730764800000 ≤ 1730790000123 ∧
        1730764800000 ≤ midnight 1730790000123 ∧
        midnight 1730790000123 ≤ 1730764800000 + dayMs) :=
  checkin_date_normalized exDb "E1" "23057470" (some exStaff) "L1"
    1730790000000 1730790000123 (by decide) (by decide)
    ⟨"L1", "P1", "E1", some "U1", 1730764800000, 1730790000123⟩ (by decide)

/-! ### C7: hierarchical breakdown -/

/-- Projecting the keys out of a keyed `map` returns the key list. -/
lemma map_fst_map_pair {β : Type} (xs : List String) (f : String → β) :
    (xs.map (fun v => (v, f v))).map Prod.fst = xs := by
  induction xs with
  | nil => rfl
  | cons a xs ih => simp [ih]

/-- Appending a ledger row for a participant who already has one does not
change the candidate set of the hierarchical breakdown. -/
lemma hierarchyCandidates_append_log (db : DB) (eid : String) (level : HLevel)
    (parentName : Option String) (l : CheckInLog)
    (h : ∃ l0 ∈ db.checkInLogs, l0.participantId = l.participantId) :
    hierarchyCandidates { db with checkInLogs := db.checkInLogs ++ [l] } eid
        level parentName =
      hierarchyCandidates db eid level parentName := by
  unfold hierarchyCandidates
  apply List.filter_congr
  intro p hp
  obtain ⟨l0, hl0, hpid⟩ := h
  have hany : (db.checkInLogs ++ [l]).any
      (fun l2 => l2.participantId == p.id) =
      db.checkInLogs.any (fun l2 => l2.participantId == p.id) := by
    rw [List.any_append]
    cases hlp : l.participantId == p.id with
    | false => simp [hlp]
    | true =>
      have hin : db.checkInLogs.any (fun l2 => l2.participantId == p.id) =
          true := by
        refine List.any_eq_true.mpr ⟨l0, hl0, ?_⟩
        rw [beq_iff_eq] at hlp ⊢
        rw [hpid, hlp]
      simp [hin, hlp]
  rw [hany]

/-- C7: the hierarchical breakdown is sorted by count descending, lists
each dimension value at most once, every listed value is non-empty and its
count is the number of distinct participant ids among the candidates with
that value, a value appears exactly when some candidate carries it, and
adding a further ledger row for an already-checked-in participant leaves
the whole breakdown unchanged (three check-ins still count once). -/
theorem hierarchy_breakdown (db : DB) (eid : String) (level : HLevel)
    (parentName : Option String) :
    List.Sorted byCountDesc (getEventHierarchyStats db eid level parentName) ∧
    ((getEventHierarchyStats db eid level parentName).map Prod.fst).Nodup ∧
    (∀ vc ∈ getEventHierarchyStats db eid level parentName,
      vc.1 ≠ "" ∧
      vc.2 = (((hierarchyCandidates db eid level parentName).filter
          (fun p => dimField level p == some vc.1)).map
        (fun p => p.id)).dedup.length) ∧
    (∀ v : String,
      (∃ p ∈ hierarchyCandidates db eid level parentName,
        dimField level p = some v) ↔
      (∃ c, (v, c) ∈ getEventHierarchyStats db eid level parentName)) ∧
    (∀ cl : CheckInLog,
      (∃ l0 ∈ db.checkInLogs, l0.participantId = cl.participantId) →
      getEventHierarchyStats { db with checkInLogs := db.checkInLogs ++ [cl] }
          eid level parentName =
        getEventHierarchyStats db eid level parentName) := by
  have hperm : (getEventHierarchyStats db eid level parentName).Perm
      (hierarchyBase db eid level parentName) :=
    List.perm_insertionSort byCountDesc _
  have hvne : ∀ v ∈ ((hierarchyCandidates db eid level parentName).filterMap
      (dimField level)).dedup, v ≠ "" := by
    intro v hv
    rw [List.mem_dedup, List.mem_filterMap] at hv
    obtain ⟨p, hp, hdim⟩ := hv
    unfold hierarchyCandidates at hp
    rw [List.mem_filter] at hp
    obtain ⟨-, hpred⟩ := hp
    simp only [Bool.and_eq_true] at hpred
    have hne := hpred.1.2
    rw [hdim] at hne
    simpa using hne
  refine ⟨?_, ?_, ?_, ?_, ?_⟩
  · exact List.sorted_insertionSort byCountDesc _
  · have hmap : (hierarchyBase db eid level parentName).map Prod.fst =
        ((hierarchyCandidates db eid level parentName).filterMap
          (dimField level)).dedup := by
      unfold hierarchyBase
      rw [map_fst_map_pair]
    refine (List.Perm.nodup_iff (hperm.map Prod.fst)).mpr ?_
    rw [hmap]
    exact List.nodup_dedup _
  · intro vc hvc
    rw [hperm.mem_iff] at hvc
    unfold hierarchyBase at hvc
    rw [List.mem_map] at hvc
    obtain ⟨v, hv, hvvc⟩ := hvc
    subst hvvc
    exact ⟨hvne v hv, rfl⟩
  · intro v
    constructor
    · rintro ⟨p, hp, hdim⟩
      refine ⟨(((hierarchyCandidates db eid level parentName).filter
          (fun q => dimField level q == some v)).map
        (fun q => q.id)).dedup.length, ?_⟩
      rw [hperm.mem_iff]
      unfold hierarchyBase
      rw [List.mem_map]
      exact ⟨v, by rw [List.mem_dedup, List.mem_filterMap]; exact ⟨p, hp, hdim⟩,
        rfl⟩
    · rintro ⟨c, hmem⟩
      rw [hperm.mem_iff] at hmem
      unfold hierarchyBase at hmem
      rw [List.mem_map] at hmem
      obtain ⟨v2, hv2, heq⟩ := hmem
      have hv2v : v2 = v := congrArg Prod.fst heq
      subst hv2v
      rw [List.mem_dedup, List.mem_filterMap] at hv2
      exact hv2
  · intro cl hcl
    unfold getEventHierarchyStats hierarchyBase
    rw [hierarchyCandidates_append_log db eid level parentName cl hcl]

/-- Witness for C7 at the example database: the county entry is non-empty
and a further same-participant check-in leaves the breakdown unchanged. -/
theorem hierarchy_breakdown_witness :
    (("Siaya", 1) : String × Nat).1 ≠ "" ∧
    getEventHierarchyStats
        { exDb2 with checkInLogs := exDb2.checkInLogs ++ [exRow2] } "E1"
        HLevel.county none =
      getEventHierarchyStats exDb2 "E1" HLevel.county none :=
  ⟨((hierarchy_breakdown exDb2 "E1" HLevel.county none).2.2.1 ("Siaya", 1)
      (by decide)).1,
   (hierarchy_breakdown exDb2 "E1" HLevel.county none).2.2.2.2 exRow2
     (by decide)⟩

/-! ### C8: by-date retrieval -/

/-- Projecting the ledger row back out of the joined by-date response rows
returns the original row list. -/
lemma map_log_map_mk (db : DB) (logs : List CheckInLog) :
    ((logs.map (fun l =>
        (⟨l, participantOf db l.participantId,
          match l.checkedInById with
          | none => none
          | some uid => userOf db uid⟩ : ByDateRow))).map
      (fun r => r.log)) = logs := by
  induction logs with
  | nil => rfl
  | cons a as ih => simp only [List.map_cons, ih]

/-- C8: by-date retrieval answers 404 for an unknown event and 400 for an
unparsable date string; otherwise it returns, with a 200, exactly the
ledger rows of the event whose `checkInDate` is the requested day (as a
permutation of the filtered ledger), sorted by `checkedInAt` descending,
each row joined with its participant and actor, with the `count` field
equal to the length of the returned list. -/
theorem by_date_retrieval (db : DB) (eid dateStr : String) :
    (db.events.find? (fun e => e.eventId == eid) = none →
      getParticipantsByDate db eid dateStr =
        ⟨404, "Event not found", 0, []⟩) ∧
    (∀ e, db.events.find? (fun e2 => e2.eventId == eid) = some e →
      (jsParseDate dateStr = none →
        getParticipantsByDate db eid dateStr =
          ⟨400, "Invalid date format. Use YYYY-MM-DD", 0, []⟩) ∧
      (∀ t, jsParseDate dateStr = some t →
        ∃ rows : List ByDateRow,
          getParticipantsByDate db eid dateStr =
            ⟨200, "Participants retrieved successfully", rows.length, rows⟩ ∧
          List.Sorted byCheckedInAtDesc (rows.map (fun r => r.log)) ∧
          (rows.map (fun r => r.log)).Perm
            (db.checkInLogs.filter
              (fun l => l.eventId == eid && l.checkInDate == midnight t)) ∧
          (∀ r ∈ rows,
            r.participant = participantOf db r.log.participantId))) := by
  constructor
  · intro hev
    unfold getParticipantsByDate
    rw [hev]
  · intro e hev
    constructor
    · intro hd
      unfold getParticipantsByDate
      rw [hev, hd]
    · intro t hd
      refine ⟨(List.insertionSort byCheckedInAtDesc
        (db.checkInLogs.filter
          (fun l => l.eventId == eid && l.checkInDate == midnight t))).map
        (fun l =>
          ⟨l, participantOf db l.participantId,
            match l.checkedInById with
            | none => none
            | some uid => userOf db uid⟩), ?_, ?_, ?_, ?_⟩
      · unfold getParticipantsByDate
        rw [hev, hd, List.length_map]
      · rw [map_log_map_mk]
        exact List.sorted_insertionSort byCheckedInAtDesc _
      · rw [map_log_map_mk]
        exact List.perm_insertionSort byCheckedInAtDesc _
      · intro r hr
        rw [List.mem_map] at hr
        obtain ⟨l, -, hlr⟩ := hr
        subst hlr
        rfl

/-- Witness for C8: on the example database, "not-a-date" yields the 400
outcome, "2024-11-05" yields a 200 with count equal to the list length and
only that day's rows, and an unknown event yields the 404 outcome. -/
theorem by_date_retrieval_witness :
    getParticipantsByDate exDb2 "E1" "not-a-date" =
      ⟨400, "Invalid date format. Use YYYY-MM-DD", 0, []⟩ ∧
    (∃ rows : List ByDateRow,
      getParticipantsByDate exDb2 "E1" "2024-11-05" =
        ⟨200, "Participants retrieved successfully", rows.length, rows⟩ ∧
      List.Sorted byCheckedInAtDesc (rows.map (fun r => r.log)) ∧
      (rows.map (fun r => r.log)).Perm
        (exDb2.checkInLogs.filter
          (fun l => l.eventId == "E1" &&
            l.checkInDate == midnight 1730764800000)) ∧
      (∀ r ∈ rows,
        r.participant = participantOf exDb2 r.log.participantId)) ∧
    getParticipantsByDate ⟨[], [], [], []⟩ "E1" "2024-11-05" =
      ⟨404, "Event not found", 0, []⟩ :=
  ⟨((by_date_retrieval exDb2 "E1" "not-a-date").2 exEvent (by decide)).1
      (by decide),
   ((by_date_retrieval exDb2 "E1" "2024-11-05").2 exEvent (by decide)).2
     1730764800000 (by decide),
   (by_date_retrieval ⟨[], [], [], []⟩ "E1" "2024-11-05").1 (by decide)⟩

/-- Witness for C1: after the first check-in on 2024-11-05 the ledger is
still unique, and a retry one hour later the same day is rejected with the
duplicate message and an unchanged database. -/
theorem checkin_one_per_day_witness :
    ledgerUnique ((checkIn exDb "E1" "23057470" (some exStaff) "L1"
        1730790000000 1730790000123).db.checkInLogs) ∧
    checkIn (checkIn exDb "E1" "23057470" (some exStaff) "L1" 1730790000000
          1730790000123).db "E1" "23057470" (some exStaff) "L2"
        1730793600000 1730793600500 =
      ⟨400, "Participant already checked in today",
        (checkIn exDb "E1" "23057470" (some exStaff) "L1" 1730790000000
          1730790000123).db, none⟩ :=
  ⟨(checkin_one_per_day exDb "E1" "23057470" (some exStaff) "L1"
      1730790000000 1730790000123).1 (by decide),
   (checkin_one_per_day exDb "E1" "23057470" (some exStaff) "L1"
      1730790000000 1730790000123).2 (by decide) (some exStaff) "L2"
     1730793600000 1730793600500 (by decide)⟩

/-! ### C9: demographic cross-tabs -/

/-- The gender normalization always lands in one of the three buckets. -/
lemma normalizeGender_trichotomy (raw : Option String) :
    normalizeGender raw = "MALE" ∨ normalizeGender raw = "FEMALE" ∨
      normalizeGender raw = "NOT STATED" := by
  cases raw with
  | none => right; right; rfl
  | some s =>
    simp only [normalizeGender]
    by_cases h0 : (s == "") = true
    · rw [if_pos h0]; right; right; rfl
    · rw [Bool.not_eq_true] at h0
      rw [if_neg (by rw [h0]; decide)]
      by_cases h1 : (s.trim.toUpper == "M" || s.trim.toUpper == "MALE") = true
      · rw [if_pos h1]; left; rfl
      · rw [Bool.not_eq_true] at h1
        rw [if_neg (by rw [h1]; decide)]
        by_cases h2 : (s.trim.toUpper == "F" ||
            s.trim.toUpper == "FEMALE") = true
        · rw [if_pos h2]; right; left; rfl
        · rw [Bool.not_eq_true] at h2
          rw [if_neg (by rw [h2]; decide)]
          right; right; rfl

/-- The three normalized gender buckets partition any participant list. -/
lemma gender_three_way (ps : List Participant) :
    (ps.filter (fun p => normalizeGender p.sex == "MALE")).length +
      (ps.filter (fun p => normalizeGender p.sex == "FEMALE")).length +
      (ps.filter (fun p => normalizeGender p.sex == "NOT STATED")).length =
      ps.length := by
  induction ps with
  | nil => rfl
  | cons p ps ih =>
    rcases normalizeGender_trichotomy p.sex with h | h | h <;>
      simp only [List.filter_cons, h] <;> simp <;> omega

/-- `filterMap` over a key list with key-preserving results yields keys in
the order of the original list. -/
lemma filterMap_keys_sublist (l : List String)
    (f : String → Option (String × Nat))
    (hf : ∀ k x, f k = some x → x.1 = k) :
    List.Sublist ((l.filterMap f).map Prod.fst) l := by
  induction l with
  | nil => simp
  | cons a l ih =>
    cases hfa : f a with
    | none =>
      rw [List.filterMap_cons_none hfa]
      exact ih.cons a
    | some x =>
      rw [List.filterMap_cons_some hfa, List.map_cons, hf a x hfa]
      exact ih.cons₂ a

/-- C9: gender is normalized into the three buckets which partition the
checked-in participants; the age cross-tab lists its buckets in the fixed
ascending order (a sublist of `ageOrder`, which excludes "Under 18"), omits
zero-count buckets, and reports for each listed bucket exactly its count;
a missing/unparsable date of birth yields a `none` age which lands in the
"NOT STATED" bucket; and the computed age applies the
birthday-not-yet-reached correction to the year difference. -/
theorem demographic_crosstabs (db : DB) (eid : String) (today : SimpleDate) :
    (∀ raw, normalizeGender raw = "MALE" ∨ normalizeGender raw = "FEMALE" ∨
      normalizeGender raw = "NOT STATED") ∧
    (genderCount db eid "MALE" + genderCount db eid "FEMALE" +
        genderCount db eid "NOT STATED" =
      (checkedInParticipants db eid).length) ∧
    List.Sublist ((ageStats db eid today).map Prod.fst) ageOrder ∧
    (∀ kc ∈ ageStats db eid today,
      kc.1 ≠ "Under 18" ∧ kc.2 ≠ 0 ∧
        kc.2 = ageBucketCount db eid today kc.1) ∧
    (calculateAge today none = none ∧ getAgeGroup none = "NOT STATED") ∧
    (∀ b : SimpleDate, calculateAge today (some b) =
      some (if today.month < b.month ∨
          (today.month = b.month ∧ today.day < b.day) then
        today.year - b.year - 1
      else today.year - b.year)) := by
  refine ⟨normalizeGender_trichotomy, gender_three_way _, ?_, ?_,
    ⟨rfl, rfl⟩, ?_⟩
  · unfold ageStats
    refine filterMap_keys_sublist ageOrder _ ?_
    intro k x hk
    by_cases hc : (ageBucketCount db eid today k == 0) = true
    · rw [if_pos hc] at hk; cases hk
    · rw [Bool.not_eq_true] at hc
      rw [if_neg (by rw [hc]; decide)] at hk
      rw [Option.some.injEq] at hk
      rw [← hk]
  · intro kc hkc
    unfold ageStats at hkc
    rw [List.mem_filterMap] at hkc
    obtain ⟨k, hk, hfk⟩ := hkc
    by_cases hc : (ageBucketCount db eid today k == 0) = true
    · rw [if_pos hc] at hfk; cases hfk
    · rw [Bool.not_eq_true] at hc
      rw [if_neg (by rw [hc]; decide)] at hfk
      rw [Option.some.injEq] at hfk
      subst hfk
      refine ⟨?_, ?_, rfl⟩
      · show k ≠ "Under 18"
        simp only [ageOrder, List.mem_cons, List.not_mem_nil, or_false] at hk
        rcases hk with h | h | h | h | h | h <;> (rw [h]; decide)
      · show ageBucketCount db eid today k ≠ 0
        intro h0
        rw [h0] at hc
        exact absurd hc (by decide)
  · intro b
    show (if (decide (today.month - b.month < 0) ||
        (today.month - b.month == 0 && decide (today.day < b.day))) = true
      then some (today.year - b.year - 1)
      else some (today.year - b.year)) =
      some (if today.month < b.month ∨
          (today.month = b.month ∧ today.day < b.day) then
        today.year - b.year - 1
      else today.year - b.year)
    by_cases hC : today.month < b.month ∨
        (today.month = b.month ∧ today.day < b.day)
    · rw [if_pos hC, if_pos ?hb]
      case hb =>
        simp only [Bool.or_eq_true, Bool.and_eq_true, decide_eq_true_eq,
          beq_iff_eq]
        omega
    · rw [if_neg hC, if_neg ?hnb]
      case hnb =>
        simp only [Bool.or_eq_true, Bool.and_eq_true, decide_eq_true_eq,
          beq_iff_eq]
        omega

/-- Witness for C9: on the example database (one checked-in participant
born 1990-05-20, cross-tab computed on 2024-11-05) the listed age bucket is
"27-35" — not "Under 18" — with the exact bucket count. -/
theorem demographic_crosstabs_witness :
    (("27-35", 1) : String × Nat).1 ≠ "Under 18" ∧
    (("27-35", 1) : String × Nat).2 =
      ageBucketCount exDb2 "E1" ⟨2024, 11, 5⟩ "27-35" :=
  ⟨((demographic_crosstabs exDb2 "E1" ⟨2024, 11, 5⟩).2.2.2.1 ("27-35", 1)
      (by decide)).1,
   ((demographic_crosstabs exDb2 "E1" ⟨2024, 11, 5⟩).2.2.2.1 ("27-35", 1)
      (by decide)).2.2⟩

end Siaya
